import Mathlib

/-
Verification of the limitador-operator reconciliation core.

Shallow embedding of:
  - controllers/limitador_controller.go: Reconcile, reconcileSpec,
    reconcilePdb, mutateLimitsConfigMap, getDeploymentStorageOptions
  - pkg/helpers (object tagging helpers)
  - pkg/limitador storage-option builders (modelled from the design
    document where the builder bodies are not among the provided sources;
    their unit tests are).

Kubernetes client calls (object fetches, deletes, secret lookups) and the
outcomes of sub-reconcilers are modelled as explicit inputs: each
reconciliation pass is a pure function of the fetched object and of the
outcomes its collaborators would produce.
-/

/-- Errors returned by the Kubernetes client and by the operator itself.
The notFound constructor models apierrors.IsNotFound-positive errors;
configError models the operator configuration errors (message payload
kept abstract, without the literal Go punctuation). -/
inductive GoError where
  | notFound (resource : String)
  | configError (msg : String)
  | otherError (msg : String)
deriving DecidableEq, Repr

/-- Embeds k8s.io/apimachinery errors.IsNotFound. -/
def isNotFound : GoError → Bool
  | .notFound _ => true
  | _ => false

/-- Embeds ctrl.Result. Only the Requeue field is ever consulted by this
controller, so the other fields are omitted. -/
structure CtrlResult where
  requeue : Bool := false
deriving DecidableEq, Repr

/- ------------------------------------------------------------------ -/
/- pkg/helpers: delete tagging (source file: src/unnamed/part_000)    -/
/- ------------------------------------------------------------------ -/

/-- Embeds the DeleteTagAnnotation constant from pkg/helpers
(renamed; the value is the Go string constant). -/
def deleteTagKey : String := "limitador.kuadrant.io/delete"

/-- A client.Object as far as the tagging helpers see it: a possibly nil
map of annotations. Go maps are modelled as association lists whose
lookup behaviour matches map indexing. -/
structure KObject where
  annotations : Option (List (String × String)) := none

/-- Go map assignment m[k] = v on an association-list map. -/
def mapSet (m : List (String × String)) (k v : String) : List (String × String) :=
  (k, v) :: m.filter (fun p => p.1 != k)

/-- Embeds helpers.TagObjectToDelete: when the annotation map is nil a
fresh map is created and attached, then the delete key is set to true. -/
def TagObjectToDelete (obj : KObject) : KObject :=
  match obj.annotations with
  | none => { obj with annotations := some (mapSet [] deleteTagKey "true") }
  | some m => { obj with annotations := some (mapSet m deleteTagKey "true") }

/-- Embeds helpers.IsObjectTaggedToDelete: nil map gives false, otherwise
the delete key must be present with value exactly true. -/
def IsObjectTaggedToDelete (obj : KObject) : Bool :=
  match obj.annotations with
  | none => false
  | some m =>
    match m.lookup deleteTagKey with
    | some v => v == "true"
    | none => false

/-- Value of an annotation key on an object, nil map giving no value. -/
def annotationValue (obj : KObject) (k : String) : Option String :=
  match obj.annotations with
  | none => none
  | some m => m.lookup k

/- ------------------------------------------------------------------ -/
/- mutateLimitsConfigMap (controllers/limitador_controller.go 293-327) -/
/- ------------------------------------------------------------------ -/

/-- Embeds the limitador.LimitadorConfigFileName constant (the single data
key the ConfigMap mutator reads and writes). -/
def LimitadorConfigFileName : String := "limitador-config.yaml"

/-- Modelled from the spec: a rate-limit rule record — a condition set
(opaque matchers) and a numeric limit/period pair. Only equality of
records matters to the mutator. -/
structure RateLimit where
  conditions : List String := []
  maxValue : Nat := 0
  seconds : Nat := 0
  nameSpace : String := ""
  varNames : List String := []
deriving DecidableEq, Repr

/-- A Go slice: nil (none) is distinct from an allocated slice, and
reflect.DeepEqual distinguishes the two, which the mutator relies on. -/
abbrev GoSlice (α : Type) := Option (List α)

/-- A v1.ConfigMap as the mutator sees it: its Data map, modelled as a
total function because Go map reads of absent keys give the empty
string. -/
structure ConfigMap where
  data : String → String

/-- Go map assignment cm.Data[k] = v. -/
def setConfigMapKey (cm : ConfigMap) (k v : String) : ConfigMap :=
  { data := fun q => if q = k then v else cm.data q }

/-- The existing-side unmarshal of mutateLimitsConfigMap: a payload that
fails to deserialize leaves the slice as nil (the Go code assigns
existingLimits = nil on error). -/
def parseOrNil (parse : String → Except String (GoSlice RateLimit)) (s : String) :
    GoSlice RateLimit :=
  match parse s with
  | .error _ => none
  | .ok l => l

/-- Embeds mutateLimitsConfigMap. The YAML deserializer is passed in as
parse (the Go code binds yaml.Unmarshal). The desired payload must
deserialize or the mutator fails; the existing payload falls back to the
nil slice on parse failure; the payloads are compared through
reflect.DeepEqual on the deserialized slices, and on inequality the
desired payload is copied over the existing one. The defensive
type-assertion failures of the Go code are unreachable here because both
arguments are ConfigMaps by type. -/
def mutateLimitsConfigMap (parse : String → Except String (GoSlice RateLimit))
    (existing desired : ConfigMap) : Except String (Bool × ConfigMap) :=
  match parse (desired.data LimitadorConfigFileName) with
  | .error e => .error e
  | .ok desiredLimits =>
    let existingLimits := parseOrNil parse (existing.data LimitadorConfigFileName)
    if desiredLimits = existingLimits then
      .ok (false, existing)
    else
      .ok (true, setConfigMapKey existing LimitadorConfigFileName
        (desired.data LimitadorConfigFileName))

/- ------------------------------------------------------------------ -/
/- Storage backend data model and option builders                      -/
/- ------------------------------------------------------------------ -/

/-- Embeds v1.ObjectReference as used by the secret references. -/
structure ObjectReference where
  name : String := ""
  nameSpace : String := ""
deriving DecidableEq, Repr

/-- Embeds v1.Secret as the resolvers see it: its Data key/value map. -/
structure Secret where
  data : List (String × String) := []
deriving DecidableEq, Repr

/-- Outcome of fetching a referenced Secret from the cluster: the
client is modelled as a function from the reference to the fetch
result. -/
abbrev SecretGetter := ObjectReference → Except GoError Secret

/-- Options of the redis-cached backend (Go struct RedisCachedOptions
with fields TTL, Ratio, FlushPeriod, MaxCached; Ratio renamed to
ratioVal here). -/
structure RedisCachedOptions where
  ttl : Option Int := none
  ratioVal : Option Int := none
  flushPeriod : Option Int := none
  maxCached : Option Int := none
deriving DecidableEq, Repr

/-- The redis backend declaration. -/
structure Redis where
  configSecretRef : Option ObjectReference := none
deriving DecidableEq, Repr

/-- The redis-cached backend declaration. -/
structure RedisCached where
  configSecretRef : Option ObjectReference := none
  options : Option RedisCachedOptions := none
deriving DecidableEq, Repr

/-- The disk backend declaration (payload opaque to the resolver
dispatch). -/
structure DiskSpec where
  optimizeMode : Option String := none
deriving DecidableEq, Repr

/-- The storage field of the declaration: one optional field per
backend. -/
structure Storage where
  redis : Option Redis := none
  redisCached : Option RedisCached := none
  disk : Option DiskSpec := none
deriving DecidableEq, Repr

/-- The pod-disruption-budget policy carried by the declaration. -/
structure PdbPolicy where
  minAvailable : Option Nat := none
  maxUnavailable : Option Nat := none
deriving DecidableEq, Repr

/-- The declaration spec fields this controller consults. -/
structure LimitadorSpec where
  replicas : Option Nat := none
  storage : Option Storage := none
  podDisruptionBudget : Option PdbPolicy := none

/-- The Limitador declaration object. -/
structure Limitador where
  name : String := ""
  nameSpace : String := ""
  deletionTimestamp : Option Nat := none
  spec : LimitadorSpec := {}

/-- Deployment update strategy carried by the storage options; unset is
the Go zero value. -/
inductive DeploymentStrategy where
  | unset
  | recreate
  | rollingUpdate
deriving DecidableEq, Repr

/-- Embeds limitador.DeploymentStorageOptions. -/
structure DeploymentStorageOptions where
  command : List String := []
  volumeMounts : List String := []
  volumes : List String := []
  deploymentStrategy : DeploymentStrategy := .unset
deriving DecidableEq, Repr

/-- The environment-variable indirection through which the redis URL
reaches the command line (the secret value is never inlined). -/
def RedisUrlEnvVarRef : String := "$(LIMITADOR_OPERATOR_REDIS_URL)"

/-- Mount path of the disk backend volume. -/
def DiskVolumeMountPath : String := "/var/lib/limitador/data"

/-- Fetch the URL entry of the referenced storage secret, shared by the
redis and redis-cached builders: no reference is a configuration error,
a fetch failure is surfaced verbatim, and a fetched secret without the
URL key is a configuration error. -/
def getStorageSecretUrl (getSecret : SecretGetter) (ref : Option ObjectReference) :
    Except GoError String :=
  match ref with
  | none => .error (.configError "there is no ConfigSecretRef set")
  | some r =>
    match getSecret r with
    | .error e => .error e
    | .ok secret =>
      match secret.data.lookup "URL" with
      | none => .error (.configError "the storage config Secret does not have the URL field")
      | some url => .ok url

/-- Modelled from the spec: limitador.RedisDeploymentOptions is not among
the provided sources. Requires the secret reference with a URL field and
builds the redis command through the environment-variable
indirection. -/
def RedisDeploymentOptions (getSecret : SecretGetter) (r : Redis) :
    Except GoError DeploymentStorageOptions :=
  match getStorageSecretUrl getSecret r.configSecretRef with
  | .error e => .error e
  | .ok _ => .ok { command := ["redis", RedisUrlEnvVarRef] }

/-- Modelled from the spec and its unit test
(pkg/limitador/redis_cache_storage_options_test.go):
limitador.RedisCachedDeploymentOptions is not among the provided
sources. Same secret requirement as redis; the command starts with
redis_cached and the URL indirection, then appends one flag/value pair
per explicitly set option, in the fixed order ttl, ratio, flush-period,
max-cached; unset options contribute nothing. -/
def RedisCachedDeploymentOptions (getSecret : SecretGetter) (rc : RedisCached) :
    Except GoError DeploymentStorageOptions :=
  match getStorageSecretUrl getSecret rc.configSecretRef with
  | .error e => .error e
  | .ok _ =>
    let cmd0 := ["redis_cached", RedisUrlEnvVarRef]
    let cmd :=
      match rc.options with
      | none => cmd0
      | some o =>
        let c1 := cmd0 ++ (match o.ttl with | some v => ["--ttl", toString v] | none => [])
        let c2 := c1 ++ (match o.ratioVal with | some v => ["--ratio", toString v] | none => [])
        let c3 := c2 ++ (match o.flushPeriod with
          | some v => ["--flush-period", toString v] | none => [])
        c3 ++ (match o.maxCached with | some v => ["--max-cached", toString v] | none => [])
    .ok { command := cmd }

/-- Modelled from the spec: limitador.DiskDeploymentOptions is not among
the provided sources. Mounts the PVC-backed path, appends the disk
argument with the mount path, forces a Recreate update strategy. -/
def DiskDeploymentOptions (_limObj : Limitador) (_d : DiskSpec) :
    Except GoError DeploymentStorageOptions :=
  .ok { command := ["disk", DiskVolumeMountPath],
        volumeMounts := [DiskVolumeMountPath],
        deploymentStrategy := .recreate }

/-- Modelled from the spec: limitador.InMemoryDeploymentOptions is not
among the provided sources. No extra arguments, no volumes, rolling
update strategy. -/
def InMemoryDeploymentOptions : Except GoError DeploymentStorageOptions :=
  .ok { deploymentStrategy := .rollingUpdate }

/-- Embeds LimitadorReconciler.getDeploymentStorageOptions
(controllers/limitador_controller.go lines 349-367): the backend fields
are tested in the fixed order redis, redis-cached, disk, and when the
storage field is nil or every backend field is nil the in-memory options
are returned. -/
def getDeploymentStorageOptions (getSecret : SecretGetter) (limObj : Limitador) :
    Except GoError DeploymentStorageOptions :=
  match limObj.spec.storage with
  | some storage =>
    match storage.redis with
    | some r => RedisDeploymentOptions getSecret r
    | none =>
      match storage.redisCached with
      | some rc => RedisCachedDeploymentOptions getSecret rc
      | none =>
        match storage.disk with
        | some d => DiskDeploymentOptions limObj d
        | none => InMemoryDeploymentOptions
  | none => InMemoryDeploymentOptions

/- ------------------------------------------------------------------ -/
/- reconcilePdb (controllers/limitador_controller.go 136-176)          -/
/- ------------------------------------------------------------------ -/

/-- A policyv1.PodDisruptionBudget as reconcilePdb sees it. -/
structure Pdb where
  deletionTimestamp : Option Nat := none
deriving DecidableEq, Repr

/-- Cluster-interaction outcomes consumed by one reconcilePdb pass: the
result of fetching the budget by its derived name, the error of deleting
it, and the error of the ensure path when a policy is declared. -/
structure PdbEnv where
  getPdb : Except GoError Pdb := .error (.notFound "pdb")
  deleteErr : Option GoError := none
  ensureErr : Option GoError := none

/-- What one reconcilePdb pass did. -/
inductive PdbAction where
  | deleted
  | skipped
  | ensured
deriving DecidableEq, Repr

/-- Modelled from the spec: limitador.ValidatePDB is not among the
provided sources; exactly one of minAvailable and maxUnavailable must be
set, anything else is a configuration error. -/
def ValidatePDB (p : PdbPolicy) : Option GoError :=
  match p.minAvailable, p.maxUnavailable with
  | some _, none => none
  | none, some _ => none
  | _, _ => some (.configError "pdb spec invalid")

/-- Embeds LimitadorReconciler.reconcilePdb. With no declared policy the
previously created budget is looked up by its derived name: a not-found
lookup is success; a budget already carrying a deletion timestamp is
left alone and the pass succeeds; otherwise the budget is deleted. With
a declared policy the budget is validated and then ensured. -/
def reconcilePdb (policy : Option PdbPolicy) (env : PdbEnv) : Except GoError PdbAction :=
  match policy with
  | none =>
    match env.getPdb with
    | .error e => if isNotFound e then .ok .skipped else .error e
    | .ok pdb =>
      match pdb.deletionTimestamp with
      | none =>
        match env.deleteErr with
        | some e => .error e
        | none => .ok .deleted
      | some _ => .ok .skipped
  | some p =>
    match ValidatePDB p with
    | some e => .error e
    | none =>
      match env.ensureErr with
      | some e => .error e
      | none => .ok .ensured

/- ------------------------------------------------------------------ -/
/- reconcileSpec and Reconcile (controllers/limitador_controller.go)   -/
/- ------------------------------------------------------------------ -/

/-- The per-kind steps of one spec reconciliation pass, in source
order. -/
inductive SpecStep where
  | service
  | pvc
  | deployment
  | configMap
  | pdb
deriving DecidableEq, Repr

/-- Cluster-interaction outcomes consumed by one reconcileSpec pass: the
error each create-or-update step would produce, and the result/error
pair of the Deployment step (which may request a requeue during the
upgrade migration). -/
structure SpecEnv where
  serviceErr : Option GoError := none
  pvcErr : Option GoError := none
  deploymentResult : CtrlResult := {}
  deploymentErr : Option GoError := none
  configMapErr : Option GoError := none
  pdbErr : Option GoError := none

/-- Embeds LimitadorReconciler.reconcileSpec (lines 109-134), returning
the list of steps that actually ran together with the result/error pair.
The Deployment step checks its requeue signal before its error, exactly
as the source does. -/
def reconcileSpec (env : SpecEnv) : List SpecStep × (CtrlResult × Option GoError) :=
  match env.serviceErr with
  | some e => ([.service], ({}, some e))
  | none =>
    match env.pvcErr with
    | some e => ([.service, .pvc], ({}, some e))
    | none =>
      if (env.deploymentResult).requeue then
        ([.service, .pvc, .deployment], (env.deploymentResult, none))
      else
        match env.deploymentErr with
        | some e => ([.service, .pvc, .deployment], ({}, some e))
        | none =>
          match env.configMapErr with
          | some e => ([.service, .pvc, .deployment, .configMap], ({}, some e))
          | none =>
            match env.pdbErr with
            | some e =>
              ([.service, .pvc, .deployment, .configMap, .pdb], ({}, some e))
            | none =>
              ([.service, .pvc, .deployment, .configMap, .pdb], ({}, none))

/-- The phases of one top-level Reconcile invocation. -/
inductive Phase where
  | getObject
  | specPhase
  | statusPhase
deriving DecidableEq, Repr

/-- Embeds LimitadorReconciler.Reconcile (lines 53-107), returning the
list of phases that ran and the final result/error pair. The fetch of
the declaration is an input; status reconciliation is an input function
of the spec error, matching the source call
reconcileStatus(ctx, limitadorObj, specErr). The debug-only JSON dump of
the object (lines 70-76) is omitted: it is logging, and its marshal
cannot fail on this object. -/
def Reconcile (getRes : Except GoError Limitador) (env : SpecEnv)
    (statusF : Option GoError → CtrlResult × Option GoError) :
    List Phase × (CtrlResult × Option GoError) :=
  match getRes with
  | .error e =>
    if isNotFound e then ([.getObject], ({}, none))
    else ([.getObject], ({}, some e))
  | .ok obj =>
    match obj.deletionTimestamp with
    | some _ => ([.getObject], ({}, none))
    | none =>
      let sp := (reconcileSpec env).2
      let st := statusF sp.2
      ([Phase.getObject, Phase.specPhase, Phase.statusPhase],
        match sp.2 with
        | some e => ({}, some e)
        | none =>
          match st.2 with
          | some e => ({}, some e)
          | none =>
            if sp.1.requeue then (sp.1, none)
            else if st.1.requeue then (st.1, none)
            else ({}, none))

/- ------------------------------------------------------------------ -/
/- Concrete fixtures for witnesses and counterexamples                 -/
/- ------------------------------------------------------------------ -/

/-- The storage secret of the unit tests: a URL entry pointing at a
redis endpoint. -/
def testSecret : Secret := { data := [("URL", "redis://example.com:6379")] }

/-- A cluster with exactly one secret named redisSecret. -/
def testGetSecret : SecretGetter := fun ref =>
  if ref.name = "redisSecret" then .ok testSecret else .error (.notFound ref.name)

/-- A cluster whose redisSecret exists but carries no URL entry. -/
def testGetSecretNoUrl : SecretGetter := fun ref =>
  if ref.name = "redisSecret" then .ok { data := [] } else .error (.notFound ref.name)

/-- Reference to the test secret. -/
def testSecretRef : ObjectReference := { name := "redisSecret", nameSpace := "some-ns" }

/-- A redis backend declaration pointing at the test secret. -/
def testRedis : Redis := { configSecretRef := some testSecretRef }

/-- A storage field with all three backend fields set at once. -/
def storageAll : Storage :=
  { redis := some testRedis,
    redisCached := some { configSecretRef := some testSecretRef },
    disk := some {} }

/-- A declaration that sets every storage backend simultaneously. -/
def limObjAllBackends : Limitador := { spec := { storage := some storageAll } }

/-- A deserializer instance reflecting the YAML library on two payloads:
the payload null deserializes to the nil slice with no error (a JSON
null unmarshalled into a Go slice leaves the slice nil), and any other
payload fails to parse. -/
def yamlNullParse : String → Except String (GoSlice RateLimit) := fun s =>
  if s = "null" then .ok none else .error "parse failure"

/-- Desired ConfigMap whose limits payload is the serialization of an
empty rule list (yaml.Marshal of a nil slice emits null). -/
def cmDesiredNull : ConfigMap := { data := fun _ => "null" }

/-- Existing ConfigMap holding an unparseable limits payload. -/
def cmExistingBad : ConfigMap := { data := fun _ => "corrupt payload" }

/-- A generic non-not-found error. -/
def errBoom : GoError := .otherError "boom"

/-- Spec environment whose Service step fails. -/
def envSpecErr : SpecEnv := { serviceErr := some errBoom }

/-- Spec environment whose Deployment step requests a requeue and also
returns an error. -/
def envRequeueErr : SpecEnv :=
  { deploymentResult := { requeue := true }, deploymentErr := some errBoom }

/-- Status reconciliation that reports clean success. -/
def statusNone : Option GoError → CtrlResult × Option GoError := fun _ => ({}, none)

/-- An existing budget not yet being deleted. -/
def pdbLive : Pdb := {}

/-- Pdb environment: the budget exists, is not being deleted, and the
delete call succeeds. -/
def pdbEnvLive : PdbEnv := { getPdb := Except.ok pdbLive }

/- ------------------------------------------------------------------ -/
/- Claim theorems                                                      -/
/- ------------------------------------------------------------------ -/

/-- Claim C10: after TagObjectToDelete, IsObjectTaggedToDelete returns
true, including from a nil annotation map; and IsObjectTaggedToDelete is
true exactly when the delete annotation key is present with the exact
value true. -/
theorem TagObjectToDelete_IsObjectTaggedToDelete (obj : KObject) :
    IsObjectTaggedToDelete (TagObjectToDelete obj) = true ∧
    (IsObjectTaggedToDelete obj = true ↔
      annotationValue obj deleteTagKey = some "true") := by
  constructor
  · cases h : obj.annotations <;>
      simp [TagObjectToDelete, IsObjectTaggedToDelete, mapSet, h, List.lookup]
  · cases h : obj.annotations with
    | none => simp [IsObjectTaggedToDelete, annotationValue, h]
    | some m =>
      simp only [IsObjectTaggedToDelete, annotationValue, h]
      cases hl : m.lookup deleteTagKey <;> simp [hl, beq_iff_eq]

/-- Claim C3: for a redis-cached declaration with a URL-bearing secret,
the resolved command with ttl=1, ratio=2, flushPeriod=3, maxCached=4 is
exactly the base pair followed by the four flag pairs; with no options
the command is exactly the base pair; and subsets of the options keep
the fixed flag order and omit the unset flags. -/
theorem RedisCachedDeploymentOptions_command :
    RedisCachedDeploymentOptions testGetSecret
        { configSecretRef := some testSecretRef,
          options := some { ttl := some 1, ratioVal := some 2,
                            flushPeriod := some 3, maxCached := some 4 } }
      = .ok { command := ["redis_cached", "$(LIMITADOR_OPERATOR_REDIS_URL)",
                          "--ttl", "1", "--ratio", "2",
                          "--flush-period", "3", "--max-cached", "4"] } ∧
    RedisCachedDeploymentOptions testGetSecret
        { configSecretRef := some testSecretRef, options := none }
      = .ok { command := ["redis_cached", "$(LIMITADOR_OPERATOR_REDIS_URL)"] } ∧
    RedisCachedDeploymentOptions testGetSecret
        { configSecretRef := some testSecretRef,
          options := some { ratioVal := some 2, maxCached := some 4 } }
      = .ok { command := ["redis_cached", "$(LIMITADOR_OPERATOR_REDIS_URL)",
                          "--ratio", "2", "--max-cached", "4"] } ∧
    RedisCachedDeploymentOptions testGetSecret
        { configSecretRef := some testSecretRef,
          options := some { maxCached := some 4, flushPeriod := some 3 } }
      = .ok { command := ["redis_cached", "$(LIMITADOR_OPERATOR_REDIS_URL)",
                          "--flush-period", "3", "--max-cached", "4"] } :=
  ⟨rfl, rfl, rfl, rfl⟩

/-- Claim C4: for redis and redis-cached backends the resolver fails
rather than defaulting: an absent secret reference is a configuration
error, a fetch failure surfaces the not-found error verbatim, and a
fetched secret without the URL key is a configuration error. -/
theorem RedisCachedDeploymentOptions_failures :
    RedisCachedDeploymentOptions testGetSecret { configSecretRef := none }
      = .error (.configError "there is no ConfigSecretRef set") ∧
    RedisCachedDeploymentOptions testGetSecret
        { configSecretRef := some { name := "notexisting", nameSpace := "some-ns" } }
      = .error (.notFound "notexisting") ∧
    RedisCachedDeploymentOptions testGetSecretNoUrl { configSecretRef := some testSecretRef }
      = .error (.configError "the storage config Secret does not have the URL field") ∧
    RedisDeploymentOptions testGetSecret { configSecretRef := none }
      = .error (.configError "there is no ConfigSecretRef set") ∧
    RedisDeploymentOptions testGetSecret
        { configSecretRef := some { name := "notexisting", nameSpace := "some-ns" } }
      = .error (.notFound "notexisting") ∧
    RedisDeploymentOptions testGetSecretNoUrl { configSecretRef := some testSecretRef }
      = .error (.configError "the storage config Secret does not have the URL field") :=
  ⟨rfl, rfl, rfl, rfl, rfl, rfl⟩

/-- Claim C5 (divergence): at the failing input where the desired
payload deserializes to the nil rule slice (the serialization of an
empty rule list) while the existing payload fails to deserialize, the
mutator reports no change and leaves the corrupt existing payload in
place, although the two payloads differ — contradicting the stated
behaviour (and the inline source comment) that an unparseable existing
payload forces the desired content to be written. -/
theorem mutateLimitsConfigMap_nil_desired_keeps_corrupt_payload :
    yamlNullParse (cmExistingBad.data LimitadorConfigFileName) = .error "parse failure" ∧
    cmExistingBad.data LimitadorConfigFileName ≠ cmDesiredNull.data LimitadorConfigFileName ∧
    mutateLimitsConfigMap yamlNullParse cmExistingBad cmDesiredNull
      = .ok (false, cmExistingBad) :=
  ⟨rfl, by decide, rfl⟩

/-- Claim C9: a desired payload that fails to deserialize makes the
mutator return that error (failing the pass, with no change reported),
while a deserializable desired payload never makes the mutator fail,
whatever the existing payload does. -/
theorem mutateLimitsConfigMap_desired_parse_failure
    (parse : String → Except String (GoSlice RateLimit)) (existing desired : ConfigMap) :
    (∀ e, parse (desired.data LimitadorConfigFileName) = .error e →
      mutateLimitsConfigMap parse existing desired = .error e) ∧
    (∀ dl, parse (desired.data LimitadorConfigFileName) = .ok dl →
      (mutateLimitsConfigMap parse existing desired).isOk = true) := by
  constructor
  · intro e h
    simp [mutateLimitsConfigMap, h]
  · intro dl h
    simp only [mutateLimitsConfigMap, h]
    split <;> rfl

/-- Witness for C9 at a concrete unparseable desired payload. -/
theorem mutateLimitsConfigMap_desired_parse_failure_witness :
    mutateLimitsConfigMap yamlNullParse cmDesiredNull cmExistingBad
      = .error "parse failure" :=
  (mutateLimitsConfigMap_desired_parse_failure yamlNullParse cmDesiredNull cmExistingBad).1
    "parse failure" rfl

/-- Claim C6: with the disruption-budget policy absent, the pass looks
up the previously created budget and: a not-found lookup succeeds
without deleting anything; a budget already carrying a deletion
timestamp succeeds without deleting; a live budget is deleted. -/
theorem reconcilePdb_absent_policy (env : PdbEnv) :
    (∀ s, env.getPdb = .error (GoError.notFound s) →
      reconcilePdb none env = .ok PdbAction.skipped) ∧
    (∀ pdb t, env.getPdb = .ok pdb → pdb.deletionTimestamp = some t →
      reconcilePdb none env = .ok PdbAction.skipped) ∧
    (∀ pdb, env.getPdb = .ok pdb → pdb.deletionTimestamp = none →
      env.deleteErr = none → reconcilePdb none env = .ok PdbAction.deleted) := by
  refine ⟨?_, ?_, ?_⟩ <;> intros <;> simp [reconcilePdb, isNotFound, *]

/-- Witness for C6: a live budget with a clean delete call is deleted. -/
theorem reconcilePdb_absent_policy_witness :
    reconcilePdb none pdbEnvLive = .ok PdbAction.deleted :=
  (reconcilePdb_absent_policy pdbEnvLive).2.2 pdbLive rfl rfl rfl

/-- Claim C2: storage-backend resolution tries redis, then redis-cached,
then disk, and otherwise returns the in-memory options; the first
non-nil backend field wins, so redis wins silently when several are set,
and a nil storage field or all-nil backend fields give the in-memory
options. -/
theorem getDeploymentStorageOptions_priority (getSecret : SecretGetter) (limObj : Limitador) :
    (∀ st r, limObj.spec.storage = some st → st.redis = some r →
      getDeploymentStorageOptions getSecret limObj = RedisDeploymentOptions getSecret r) ∧
    (∀ st rc, limObj.spec.storage = some st → st.redis = none → st.redisCached = some rc →
      getDeploymentStorageOptions getSecret limObj = RedisCachedDeploymentOptions getSecret rc) ∧
    (∀ st d, limObj.spec.storage = some st → st.redis = none → st.redisCached = none →
      st.disk = some d →
      getDeploymentStorageOptions getSecret limObj = DiskDeploymentOptions limObj d) ∧
    (∀ st, limObj.spec.storage = some st → st.redis = none → st.redisCached = none →
      st.disk = none →
      getDeploymentStorageOptions getSecret limObj = InMemoryDeploymentOptions) ∧
    (limObj.spec.storage = none →
      getDeploymentStorageOptions getSecret limObj = InMemoryDeploymentOptions) := by
  refine ⟨?_, ?_, ?_, ?_, ?_⟩ <;> intros <;> simp [getDeploymentStorageOptions, *]

/-- Witness for C2: a declaration setting all three backends at once
resolves through the redis branch. -/
theorem getDeploymentStorageOptions_priority_witness :
    getDeploymentStorageOptions testGetSecret limObjAllBackends
      = RedisDeploymentOptions testGetSecret testRedis :=
  (getDeploymentStorageOptions_priority testGetSecret limObjAllBackends).1
    storageAll testRedis rfl rfl

/-- Claim C7: one spec reconciliation pass runs the per-kind steps in
the fixed order Service, PVC, Deployment, ConfigMap, PDB — the step list
is always one of the prefixes of that order — an error in any step stops
the pass there, and a Deployment requeue signal returns immediately,
skipping the ConfigMap and PDB steps. -/
theorem reconcileSpec_fixed_order (env : SpecEnv) :
    (reconcileSpec env).1 ∈ [[SpecStep.service],
        [SpecStep.service, SpecStep.pvc],
        [SpecStep.service, SpecStep.pvc, SpecStep.deployment],
        [SpecStep.service, SpecStep.pvc, SpecStep.deployment, SpecStep.configMap],
        [SpecStep.service, SpecStep.pvc, SpecStep.deployment, SpecStep.configMap,
          SpecStep.pdb]] ∧
    (∀ e, env.serviceErr = some e →
      reconcileSpec env = ([SpecStep.service], ({}, some e))) ∧
    (∀ e, env.serviceErr = none → env.pvcErr = some e →
      reconcileSpec env = ([SpecStep.service, SpecStep.pvc], ({}, some e))) ∧
    (env.serviceErr = none → env.pvcErr = none → env.deploymentResult.requeue = true →
      reconcileSpec env = ([SpecStep.service, SpecStep.pvc, SpecStep.deployment],
        (env.deploymentResult, none))) ∧
    (∀ e, env.serviceErr = none → env.pvcErr = none → env.deploymentResult.requeue = false →
      env.deploymentErr = some e →
      reconcileSpec env = ([SpecStep.service, SpecStep.pvc, SpecStep.deployment],
        ({}, some e))) ∧
    (∀ e, env.serviceErr = none → env.pvcErr = none → env.deploymentResult.requeue = false →
      env.deploymentErr = none → env.configMapErr = some e →
      reconcileSpec env = ([SpecStep.service, SpecStep.pvc, SpecStep.deployment,
        SpecStep.configMap], ({}, some e))) ∧
    (∀ e, env.serviceErr = none → env.pvcErr = none → env.deploymentResult.requeue = false →
      env.deploymentErr = none → env.configMapErr = none → env.pdbErr = some e →
      reconcileSpec env = ([SpecStep.service, SpecStep.pvc, SpecStep.deployment,
        SpecStep.configMap, SpecStep.pdb], ({}, some e))) := by
  refine ⟨?_, ?_, ?_, ?_, ?_, ?_, ?_⟩
  · unfold reconcileSpec
    rcases env.serviceErr <;> rcases env.pvcErr <;> rcases env.deploymentResult.requeue <;>
      rcases env.deploymentErr <;> rcases env.configMapErr <;> rcases env.pdbErr <;> simp
  all_goals (intros; simp [reconcileSpec, *])

/-- Witness for C7: a failing Service step stops the pass after the
Service step. -/
theorem reconcileSpec_fixed_order_witness :
    reconcileSpec envSpecErr = ([SpecStep.service], ({}, some errBoom)) :=
  (reconcileSpec_fixed_order envSpecErr).2.1 errBoom rfl

/-- Claim C8: when the Deployment step returns both a requeue signal and
an error, the requeue wins and the error is discarded: reconcileSpec
returns the requeue result with no error. -/
theorem reconcileSpec_requeue_discards_error (env : SpecEnv) (e : GoError)
    (h1 : env.serviceErr = none) (h2 : env.pvcErr = none)
    (h3 : env.deploymentResult.requeue = true) (_h4 : env.deploymentErr = some e) :
    reconcileSpec env = ([SpecStep.service, SpecStep.pvc, SpecStep.deployment],
      (env.deploymentResult, none)) := by
  simp [reconcileSpec, h1, h2, h3]

/-- Witness for C8 at a concrete environment where the Deployment step
requeues and errors at once. -/
theorem reconcileSpec_requeue_discards_error_witness :
    reconcileSpec envRequeueErr = ([SpecStep.service, SpecStep.pvc, SpecStep.deployment],
      ({ requeue := true }, none)) :=
  reconcileSpec_requeue_discards_error envRequeueErr errBoom rfl rfl rfl rfl

/-- Claim C1: on an existing declaration not marked for deletion, the
status phase always runs — also when the spec pass errored — and the
combined result follows the fixed precedence: spec error, else status
error, else spec requeue, else status requeue, else clean success. -/
theorem Reconcile_runs_status_and_combines
    (getRes : Except GoError Limitador) (env : SpecEnv)
    (statusF : Option GoError → CtrlResult × Option GoError) (obj : Limitador)
    (hfound : getRes = Except.ok obj) (hlive : obj.deletionTimestamp = none) :
    Phase.statusPhase ∈ (Reconcile getRes env statusF).1 ∧
    (∀ e, (reconcileSpec env).2.2 = some e →
      (Reconcile getRes env statusF).2 = ({}, some e)) ∧
    (∀ e, (reconcileSpec env).2.2 = none → (statusF none).2 = some e →
      (Reconcile getRes env statusF).2 = ({}, some e)) ∧
    ((reconcileSpec env).2.2 = none → (statusF none).2 = none →
      (reconcileSpec env).2.1.requeue = true →
      (Reconcile getRes env statusF).2 = ((reconcileSpec env).2.1, none)) ∧
    ((reconcileSpec env).2.2 = none → (statusF none).2 = none →
      (reconcileSpec env).2.1.requeue = false → (statusF none).1.requeue = true →
      (Reconcile getRes env statusF).2 = ((statusF none).1, none)) ∧
    ((reconcileSpec env).2.2 = none → (statusF none).2 = none →
      (reconcileSpec env).2.1.requeue = false → (statusF none).1.requeue = false →
      (Reconcile getRes env statusF).2 = ({}, none)) := by
  subst hfound
  refine ⟨?_, ?_, ?_, ?_, ?_, ?_⟩
  · simp [Reconcile, hlive]
  all_goals (intros; simp [Reconcile, hlive, *])

/-- Witness for C1: with a failing Service step and a clean status pass,
the status phase still runs and the spec error is returned. -/
theorem Reconcile_runs_status_and_combines_witness :
    Phase.statusPhase ∈ (Reconcile (Except.ok ({} : Limitador)) envSpecErr statusNone).1 ∧
    (Reconcile (Except.ok ({} : Limitador)) envSpecErr statusNone).2 = ({}, some errBoom) := by
  have h := Reconcile_runs_status_and_combines (Except.ok ({} : Limitador)) envSpecErr
    statusNone {} rfl rfl
  exact ⟨h.1, h.2.1 errBoom rfl⟩
